import Mathlib

/-!
Verification development for the payment-gateway backend
(`database_original.py`, `otp_service.py`, `payment_service.py`,
`config.py`).  The Python code is shallowly embedded: the MongoDB store
becomes explicit list-backed state, wall-clock readings and random draws
become oracle parameters, exceptions become `Except`/`Option` values, and
milliseconds are rationals.
-/

namespace PaymentGateway

/-! ### Configuration (config.py) -/

def OTP_EXPIRY_MINUTES : ℚ := 2
def OTP_TIMEOUT_MS : ℚ := 400
def PAYMENT_RETRY_COUNT : Nat := 3
def PAYMENT_RETRY_DELAY_MS : ℚ := 100
def BASE_WRITE_LATENCY_MS : ℚ := 15
def CONTENTION_FACTOR : ℚ := 3 / 2

/-! ### Data model (the two MongoDB collections) -/

inductive IntentStatus where
  | pending
  | awaiting_otp
  | otp_sent
  | completed
  deriving DecidableEq, Repr

structure PaymentIntent where
  id : String
  merchant_id : String
  amount : ℚ
  currency : String
  card_last_four : String
  holder_name : String
  status : IntentStatus
  created_at : ℚ
  committed_at : Option ℚ
  deriving DecidableEq, Repr

structure OtpSession where
  id : String
  payment_intent_id : String
  otp : String
  created_at : ℚ
  expires_at : ℚ
  verified : Bool
  failed : Bool
  verified_at : Option ℚ
  deriving DecidableEq, Repr

structure DB where
  payment_intents : List PaymentIntent
  otp_sessions : List OtpSession
  deriving DecidableEq, Repr

def emptyDB : DB := ⟨[], []⟩

/-- Mongo `update_one`: rewrite the first element matching the filter. -/
def updateFirst {α : Type} (p : α → Bool) (f : α → α) : List α → List α
  | [] => []
  | x :: xs => if p x then f x :: xs else x :: updateFirst p f xs

/-! ### Contention tracker (`_track_transaction_start` / `_track_transaction_end`)

The process-wide `_active_transactions` counter.  We model it as an
integer so that the `max(0, n - 1)` floor in the decrement is a real
statement rather than one forced by the type. -/

def trackStart (n : Int) : Int := n + 1

def trackEnd (n : Int) : Int := max 0 (n - 1)

inductive TxEvent where
  | tstart
  | tend
  deriving DecidableEq, Repr

def applyEvent (n : Int) : TxEvent → Int
  | .tstart => trackStart n
  | .tend => trackEnd n

def runEvents (n : Int) (es : List TxEvent) : Int := es.foldl applyEvent n

def countStart (es : List TxEvent) : Nat := es.count TxEvent.tstart

def countEnd (es : List TxEvent) : Nat := es.count TxEvent.tend

/-- `_simulate_write_latency`: the latency computed from the counter value
read inside the function (`BASE_WRITE_LATENCY_MS * (1 + concurrent *
CONTENTION_FACTOR * 0.1)`).  The sleep itself is not modelled, only the
computed duration. -/
def simulateWriteLatency (concurrent : Int) : ℚ :=
  BASE_WRITE_LATENCY_MS * (1 + concurrent * CONTENTION_FACTOR * (1 / 10))

/-! ### Intent Store `create` (`create_payment_intent`)

Oracle inputs: the generated uuid, the creation timestamp, and whether
`insert_one` / the follow-up `update_one` raise (`PyMongoError` text). -/

structure CreateEnv where
  newId : String
  createdAt : ℚ
  insertError : Option String
  updateError : Option String
  deriving Repr

structure CreateResult where
  counter : Int
  db : DB
  events : List TxEvent
  latency : ℚ
  outcome : Except String PaymentIntent
  deriving Repr

def create_payment_intent (counter : Int) (db : DB)
    (merchant_id : String) (amount : ℚ) (currency : String)
    (card_last_four : String) (holder_name : String)
    (env : CreateEnv) : CreateResult :=
  let intent : PaymentIntent :=
    { id := env.newId
      merchant_id := merchant_id
      amount := amount
      currency := currency
      card_last_four := card_last_four
      holder_name := holder_name
      status := .pending
      created_at := env.createdAt
      committed_at := none }
  -- _track_transaction_start(); the latency read happens after it, so in a
  -- sequential run the counter it sees is the post-increment value.
  let c1 := trackStart counter
  let latency := simulateWriteLatency c1
  match env.insertError with
  | some e =>
      -- insert_one raised: nothing persisted, finally still runs end().
      { counter := trackEnd c1
        db := db
        events := [.tstart, .tend]
        latency := latency
        outcome := .error e }
  | none =>
      let db1 : DB := { db with payment_intents := db.payment_intents ++ [intent] }
      match env.updateError with
      | some e =>
          -- update_one raised: record left in status `pending`.
          { counter := trackEnd c1
            db := db1
            events := [.tstart, .tend]
            latency := latency
            outcome := .error e }
      | none =>
          let intents2 :=
            updateFirst (fun p => decide (p.id = env.newId))
              (fun p => { p with status := .awaiting_otp })
              db1.payment_intents
          let db2 : DB := { db1 with payment_intents := intents2 }
          { counter := trackEnd c1
            db := db2
            events := [.tstart, .tend]
            latency := latency
            outcome := .ok { intent with status := .awaiting_otp } }

/-! ### Intent Store bounded read (`get_payment_intent`)

The polling loop checks `elapsed_ms > timeout_ms` first, then queries for
a record with the given id whose status is in
`{awaiting_otp, otp_sent, completed}`, and sleeps 10ms between polls.
We model one iteration per entry of an oracle trace carrying the elapsed
milliseconds observed at the top of the iteration and the store snapshot
the query sees.  `none` means the trace was too short to decide the loop
(a model artifact, not a program outcome); `some r` is the loop's return. -/

def readyStatuses : List IntentStatus := [.awaiting_otp, .otp_sent, .completed]

def findIntentReady (db : DB) (payment_id : String) : Option PaymentIntent :=
  db.payment_intents.find?
    (fun p => decide (p.id = payment_id ∧ p.status ∈ readyStatuses))

def get_payment_intent (payment_id : String) (timeout_ms : ℚ) :
    List (ℚ × DB) → Option (Option PaymentIntent)
  | [] => none
  | (elapsed, db) :: rest =>
      if timeout_ms < elapsed then some none
      else
        match findIntentReady db payment_id with
        | some p => some (some p)
        | none => get_payment_intent payment_id timeout_ms rest

/-! ### Session Store (`create_otp_session`, `get_otp_session`,
`verify_otp_session`)

`create_otp_session` mints its own `_id` (`str(uuid.uuid4())`); the id it
stores the session under is an oracle input `newId`, distinct from any
identifier the caller may have generated. -/

def create_otp_session (db : DB) (newId : String)
    (payment_intent_id : String) (otp_code : String)
    (createdAt : ℚ) (expiry_time : ℚ) : DB × OtpSession :=
  let session : OtpSession :=
    { id := newId
      payment_intent_id := payment_intent_id
      otp := otp_code
      created_at := createdAt
      expires_at := expiry_time
      verified := false
      failed := false
      verified_at := none }
  let intents :=
    updateFirst (fun p => decide (p.id = payment_intent_id))
      (fun p => { p with status := .otp_sent })
      db.payment_intents
  ({ payment_intents := intents
     otp_sessions := db.otp_sessions ++ [session] }, session)

def get_otp_session (db : DB) (session_id : String) : Option OtpSession :=
  db.otp_sessions.find? (fun s => decide (s.id = session_id))

/-- `verify_otp_session`: the conditional `update_one` on
`{_id: session_id, verified: False}`, then, when the update applied and
`success`, the lookup of the session and the `completed` write on the
owning intent.  `now` is the `datetime.utcnow()` reading. -/
def consumeMark (success : Bool) (now : ℚ) (s : OtpSession) : OtpSession :=
  { s with verified := true, failed := !success, verified_at := some now }

def verify_otp_session (db : DB) (session_id : String) (success : Bool)
    (now : ℚ) : DB × Bool :=
  let matched :=
    db.otp_sessions.any (fun s => decide (s.id = session_id ∧ s.verified = false))
  let sessions :=
    updateFirst (fun s => decide (s.id = session_id ∧ s.verified = false))
      (consumeMark success now)
      db.otp_sessions
  let db1 : DB := { db with otp_sessions := sessions }
  if matched ∧ success then
    match get_otp_session db1 session_id with
    | some session =>
        let intents :=
          updateFirst (fun p => decide (p.id = session.payment_intent_id))
            (fun p => { p with status := .completed, committed_at := some now })
            db1.payment_intents
        ({ db1 with payment_intents := intents }, matched)
    | none => (db1, matched)
  else (db1, matched)

/-! ### Code Verifier (`verify_otp`)

Instrumented with the list of `verify_otp_session` calls it makes
(session id and `success` flag), so that "consume exactly once" is a
statement about the embedding. -/

structure VerifyResult where
  db : DB
  ok : Bool
  message : String
  consumeCalls : List (String × Bool)
  deriving DecidableEq, Repr

def verify_otp (db : DB) (session_id : String) (otp_code : String)
    (now : ℚ) : VerifyResult :=
  match get_otp_session db session_id with
  | none => ⟨db, false, "Invalid or expired session", []⟩
  | some session =>
      if session.verified then
        ⟨db, false, "OTP already used", []⟩
      else if session.expires_at < now then
        ⟨(verify_otp_session db session_id false now).1, false,
          "OTP has expired", [(session_id, false)]⟩
      else if session.otp ≠ otp_code then
        ⟨(verify_otp_session db session_id false now).1, false,
          "Invalid OTP", [(session_id, false)]⟩
      else
        ⟨(verify_otp_session db session_id true now).1, true,
          "Payment verified successfully", [(session_id, true)]⟩

/-! ### Code Issuer (`create_otp_for_payment`)

Oracle inputs per attempt: the elapsed-time trace seen by the polling
read (the store snapshot at each poll is the current store — the
sequential, single-writer case), the elapsed reading taken after the
read returns, the generated 16-character session id and 6-digit code,
the `utcnow` reading, the uuid minted inside `create_otp_session`, and
whether that insert raises.  Result `none` means the poll trace was too
short to decide the loop (model artifact). -/

structure IssueEnv where
  pollTimes : List ℚ
  elapsedAfter : ℚ
  sessionId : String
  otpCode : String
  now : ℚ
  newSessionDocId : String
  insertError : Option String
  deriving Repr

structure IssueResult where
  session_id : Option String
  otp : Option String
  error : Option String
  deriving DecidableEq, Repr

def create_otp_for_payment (db : DB) (payment_intent_id : String)
    (env : IssueEnv) : Option (DB × IssueResult) :=
  match get_payment_intent payment_intent_id OTP_TIMEOUT_MS
      (env.pollTimes.map (fun e => (e, db))) with
  | none => none
  | some none => some (db, ⟨none, none, none⟩)
  | some (some _payment) =>
      let remaining := OTP_TIMEOUT_MS - env.elapsedAfter
      if remaining < 50 then some (db, ⟨none, none, none⟩)
      else
        let expiry := env.now + OTP_EXPIRY_MINUTES * 60 * 1000
        match env.insertError with
        | some e => some (db, ⟨none, none, some e⟩)
        | none =>
            let (db1, _session) :=
              create_otp_session db env.newSessionDocId payment_intent_id
                env.otpCode env.now expiry
            some (db1, ⟨some env.sessionId, some env.otpCode, none⟩)

/-! ### Transaction Orchestrator (`initiate_payment`)

`card_number[-4:]`, the creation step, and the retry loop over
`create_otp_for_payment` with a sleep between attempts.  Python
truthiness on the returned strings is modelled by `truthy`. -/

def truthy : Option String → Bool
  | none => false
  | some s => !(s = "")

def card_last_four (card_number : String) : String :=
  ⟨card_number.toList.drop (card_number.length - 4)⟩

structure PaymentResult where
  success : Bool
  message : String
  session_id : Option String
  otp : Option String
  payment_id : Option String
  deriving DecidableEq, Repr

structure LoopResult where
  db : DB
  session_id : Option String
  otp : Option String
  lastError : Option String
  issueCalls : Nat
  sleeps : Nat
  deriving Repr

/-- The `for attempt in range(PAYMENT_RETRY_COUNT)` body: one `IssueEnv`
per remaining attempt; a sleep happens only when this is not the last
attempt and the attempt did not succeed. -/
def otpLoop (payment_intent_id : String) :
    DB → Option String → List IssueEnv → Option LoopResult
  | db, lastErr, [] => some ⟨db, none, none, lastErr, 0, 0⟩
  | db, lastErr, env :: rest =>
      match create_otp_for_payment db payment_intent_id env with
      | none => none
      | some (db1, r) =>
          if truthy r.session_id && truthy r.otp then
            some ⟨db1, r.session_id, r.otp, lastErr, 1, 0⟩
          else
            let lastErr1 := if truthy r.error then r.error else lastErr
            match rest with
            | [] => some ⟨db1, r.session_id, r.otp, lastErr1, 1, 0⟩
            | _ :: _ =>
                match otpLoop payment_intent_id db1 lastErr1 rest with
                | none => none
                | some lr =>
                    some ⟨lr.db, lr.session_id, lr.otp, lr.lastError,
                          lr.issueCalls + 1, lr.sleeps + 1⟩

structure InitEnv where
  create : CreateEnv
  attempts : Nat → IssueEnv

structure InitOutcome where
  result : PaymentResult
  db : DB
  counter : Int
  createEvents : List TxEvent
  issueCalls : Nat
  sleeps : Nat
  lastError : Option String
  deriving DecidableEq, Repr

def initiate_payment (counter : Int) (db : DB)
    (merchant_id card_number _expiry _cvv holder_name : String)
    (amount : ℚ) (currency : String) (env : InitEnv) : Option InitOutcome :=
  let lastFour := card_last_four card_number
  let cr := create_payment_intent counter db merchant_id amount currency
    lastFour holder_name env.create
  match cr.outcome with
  | .error e =>
      some { result := ⟨false, "Payment creation failed: " ++ e, none, none, none⟩
             db := cr.db
             counter := cr.counter
             createEvents := cr.events
             issueCalls := 0
             sleeps := 0
             lastError := none }
  | .ok payment =>
      let envs := (List.range PAYMENT_RETRY_COUNT).map env.attempts
      match otpLoop payment.id cr.db none envs with
      | none => none
      | some lr =>
          if !truthy lr.session_id || !truthy lr.otp then
            some { result := ⟨false, "Unable to generate OTP. Please try again.",
                              none, none, some payment.id⟩
                   db := lr.db
                   counter := cr.counter
                   createEvents := cr.events
                   issueCalls := lr.issueCalls
                   sleeps := lr.sleeps
                   lastError := lr.lastError }
          else
            some { result := ⟨true, "OTP generated successfully",
                              lr.session_id, lr.otp, some payment.id⟩
                   db := lr.db
                   counter := cr.counter
                   createEvents := cr.events
                   issueCalls := lr.issueCalls
                   sleeps := lr.sleeps
                   lastError := lr.lastError }

/-! ### The store's write operations, as one type

Used to state that the `completed` status is written by exactly one of
them.  (`mark_code_sent` / `mark_completed` of the spec are the inline
status updates inside these operations; the code has no separate
functions for them.) -/

inductive StoreOp where
  | createIntent (counter : Int) (m : String) (a : ℚ) (cur cl hn : String)
      (env : CreateEnv)
  | createSession (newId payment_intent_id otp_code : String)
      (createdAt expiry : ℚ)
  | consume (session_id : String) (success : Bool) (now : ℚ)

def applyOp (db : DB) : StoreOp → DB
  | .createIntent c m a cur cl hn env =>
      (create_payment_intent c db m a cur cl hn env).db
  | .createSession nid pid otp ca ex =>
      (create_otp_session db nid pid otp ca ex).1
  | .consume sid succ now => (verify_otp_session db sid succ now).1

/-! ### Predicates and concrete scenarios used by the statements -/

/-- Modelled from the spec: the claim's latency formula applied to the
pre-increment in-flight count, the value §4.1 says `begin()` returns
("the number of writes already in flight"). -/
def claimedLatencyPreIncrement (contention_level : Int) : ℚ :=
  BASE_WRITE_LATENCY_MS * (1 + contention_level * CONTENTION_FACTOR * (1 / 10))

/-- One polling iteration that makes `get_payment_intent` continue:
elapsed within the timeout and no ready record visible. -/
def pollOk (payment_id : String) (timeout : ℚ) (poll : ℚ × DB) : Prop :=
  poll.1 ≤ timeout ∧ findIntentReady poll.2 payment_id = none

/-- An issuance attempt whose very first poll already sees elapsed time
over the deadline (the per-attempt deadline was smaller than the write
latency), so `get_payment_intent` returns the sentinel at once. -/
def timedOutAttempt (e : IssueEnv) : Prop :=
  ∃ t ts, e.pollTimes = t :: ts ∧ OTP_TIMEOUT_MS < t

/-- An issuance attempt that finds the intent in time and has budget
left, but whose Session Store insert raises with a nonempty message. -/
def erroringAttempt (e : IssueEnv) : Prop :=
  (∃ t ts, e.pollTimes = t :: ts ∧ t ≤ OTP_TIMEOUT_MS)
  ∧ ¬ OTP_TIMEOUT_MS - e.elapsedAfter < 50
  ∧ ∃ msg, e.insertError = some msg ∧ msg ≠ ""

/-- The concrete happy-path run used to exhibit the issuance/verification
round-trip failure: no store errors, the intent is found at the first
10ms poll, and the attempt's generated identifiers are fixed. -/
def c1Run : Option InitOutcome :=
  initiate_payment 0 emptyDB "merchant-1" "4242424242424242" "12/30" "123"
    "alice" 100 "USD"
    ⟨⟨"11111111-2222-3333-4444-555555555555", 0, none, none⟩,
      fun _ => ⟨[10], 20, "A3F8K2M9Q1R7T5W0", "483291", 1000,
        "aaaabbbb-cccc-dddd-eeee-ffff00001111", none⟩⟩

/-! ### Helper lemmas -/

lemma create_payment_intent_latency (counter : Int) (db : DB) (m : String)
    (a : ℚ) (cur cl hn : String) (env : CreateEnv) :
    (create_payment_intent counter db m a cur cl hn env).latency
      = simulateWriteLatency (counter + 1) := by
  obtain ⟨nid, ca, ie, ue⟩ := env
  cases ie <;> cases ue <;> rfl

lemma create_payment_intent_events (counter : Int) (db : DB) (m : String)
    (a : ℚ) (cur cl hn : String) (env : CreateEnv) :
    (create_payment_intent counter db m a cur cl hn env).events
      = [TxEvent.tstart, TxEvent.tend] := by
  obtain ⟨nid, ca, ie, ue⟩ := env
  cases ie <;> cases ue <;> rfl

lemma runEvents_nonneg : ∀ (es : List TxEvent) (n : Int), 0 ≤ n →
    0 ≤ runEvents n es
  | [], n, h => h
  | e :: es, n, h => by
      have h1 : 0 ≤ applyEvent n e := by
        cases e with
        | tstart => simp [applyEvent, trackStart]; omega
        | tend => simp [applyEvent, trackEnd]
      exact runEvents_nonneg es (applyEvent n e) h1

lemma countStart_nil : countStart [] = 0 := rfl

lemma countEnd_nil : countEnd [] = 0 := rfl

lemma countStart_tstart (es : List TxEvent) :
    countStart (.tstart :: es) = countStart es + 1 := by
  simp [countStart, List.count_cons]

lemma countStart_tend (es : List TxEvent) :
    countStart (.tend :: es) = countStart es := by
  simp [countStart, List.count_cons]

lemma countEnd_tstart (es : List TxEvent) :
    countEnd (.tstart :: es) = countEnd es := by
  simp [countEnd, List.count_cons]

lemma countEnd_tend (es : List TxEvent) :
    countEnd (.tend :: es) = countEnd es + 1 := by
  simp [countEnd, List.count_cons]

lemma runEvents_counts : ∀ (es : List TxEvent) (n : Int), 0 ≤ n →
    (∀ k, (countEnd (es.take k) : Int) ≤ n + countStart (es.take k)) →
    runEvents n es = n + countStart es - countEnd es
  | [], n, _, _ => by simp [runEvents, countStart, countEnd]
  | e :: es, n, hn, h => by
      cases e with
      | tstart =>
          have step : runEvents n (TxEvent.tstart :: es)
              = runEvents (n + 1) es := rfl
          have h' : ∀ k, (countEnd (es.take k) : Int)
              ≤ (n + 1) + countStart (es.take k) := by
            intro k
            have := h (k + 1)
            simp only [List.take_succ_cons, countStart_tstart,
              countEnd_tstart] at this
            push_cast at this ⊢
            omega
          have ih := runEvents_counts es (n + 1) (by omega) h'
          rw [step, ih, countStart_tstart, countEnd_tstart]
          push_cast
          omega
      | tend =>
          have hge : (1 : Int) ≤ n := by
            have := h 1
            simp only [List.take_succ_cons, List.take_zero,
              countStart_tend, countEnd_tend, countStart_nil,
              countEnd_nil] at this
            omega
          have step : runEvents n (TxEvent.tend :: es)
              = runEvents (max 0 (n - 1)) es := rfl
          have hmax : max 0 (n - 1) = n - 1 := by omega
          have h' : ∀ k, (countEnd (es.take k) : Int)
              ≤ (n - 1) + countStart (es.take k) := by
            intro k
            have := h (k + 1)
            simp only [List.take_succ_cons, countStart_tend,
              countEnd_tend] at this
            push_cast at this ⊢
            omega
          have ih := runEvents_counts es (n - 1) (by omega) h'
          rw [step, hmax, ih, countStart_tend, countEnd_tend]
          push_cast
          omega

lemma updateFirst_cons_pos {α : Type} (p : α → Bool) (f : α → α) (x : α)
    (l : List α) (h : p x = true) :
    updateFirst p f (x :: l) = f x :: l := by
  simp [updateFirst, h]

lemma updateFirst_cons_neg {α : Type} (p : α → Bool) (f : α → α) (x : α)
    (l : List α) (h : p x = false) :
    updateFirst p f (x :: l) = x :: updateFirst p f l := by
  simp [updateFirst, h]

lemma updateFirst_no_match {α : Type} (p : α → Bool) (f : α → α) :
    ∀ l : List α, (∀ x ∈ l, p x = false) → updateFirst p f l = l
  | [], _ => rfl
  | x :: l, h => by
      rw [updateFirst_cons_neg p f x l (h x (by simp)),
        updateFirst_no_match p f l (fun y hy => h y (by simp [hy]))]

lemma mem_updateFirst {α : Type} (p : α → Bool) (f : α → α) :
    ∀ (l : List α) (y : α), y ∈ updateFirst p f l →
      y ∈ l ∨ ∃ x ∈ l, p x = true ∧ y = f x
  | [], _, h => by simp [updateFirst] at h
  | x :: l, y, h => by
      by_cases hx : p x = true
      · rw [updateFirst_cons_pos p f x l hx] at h
        rcases List.mem_cons.1 h with h1 | h1
        · exact Or.inr ⟨x, by simp, hx, h1⟩
        · exact Or.inl (List.mem_cons_of_mem x h1)
      · rw [updateFirst_cons_neg p f x l (by simpa using hx)] at h
        rcases List.mem_cons.1 h with h1 | h1
        · exact Or.inl (by simp [h1])
        · rcases mem_updateFirst p f l y h1 with h2 | ⟨z, hz, hpz, hyz⟩
          · exact Or.inl (List.mem_cons_of_mem x h2)
          · exact Or.inr ⟨z, List.mem_cons_of_mem x hz, hpz, hyz⟩

lemma find?_append_left_none {α : Type} (p : α → Bool) :
    ∀ (l1 l2 : List α), (∀ x ∈ l1, p x = false) →
      (l1 ++ l2).find? p = l2.find? p
  | [], _, _ => rfl
  | x :: l1, l2, h => by
      have hx : p x = false := h x (by simp)
      simp only [List.cons_append, List.find?_cons, hx]
      exact find?_append_left_none p l1 l2 (fun y hy => h y (by simp [hy]))

/-- When the first session with the given id is unverified, the
conditional update applies to exactly that session, the matched flag is
set, and the id-lookup afterwards returns the marked session. -/
lemma sessions_consume_applied (sid : String) (succ : Bool) (now : ℚ) :
    ∀ (l : List OtpSession) (s : OtpSession),
      l.find? (fun t => decide (t.id = sid)) = some s → s.verified = false →
      l.any (fun t => decide (t.id = sid ∧ t.verified = false)) = true
      ∧ (updateFirst (fun t => decide (t.id = sid ∧ t.verified = false))
            (consumeMark succ now) l).find? (fun t => decide (t.id = sid))
          = some (consumeMark succ now s)
  | [], s, hf, _ => by simp [List.find?] at hf
  | x :: l, s, hf, hv => by
      by_cases hx : x.id = sid
      · rw [List.find?_cons_of_pos _ (by simp [hx])] at hf
        have hxs : x = s := Option.some.inj hf
        subst hxs
        have hp : (fun t => decide (t.id = sid ∧ t.verified = false)) x = true := by
          simp [hx, hv]
        constructor
        · simp only [List.any_cons, hp, Bool.true_or]
        · rw [updateFirst_cons_pos _ _ x l hp,
            List.find?_cons_of_pos _ (by simp [consumeMark, hx])]
      · rw [List.find?_cons_of_neg _ (by simp [hx])] at hf
        have ih := sessions_consume_applied sid succ now l s hf hv
        have hp : (fun t => decide (t.id = sid ∧ t.verified = false)) x = false := by
          simp [hx]
        constructor
        · simp only [List.any_cons, hp, Bool.false_or]
          exact ih.1
        · rw [updateFirst_cons_neg _ _ x l hp,
            List.find?_cons_of_neg _ (by simp [hx])]
          exact ih.2

/-- When the session with the given id is already verified (ids are
unique, as the Mongo `_id` index guarantees), the conditional update
matches nothing and the collection is unchanged. -/
lemma sessions_consume_noop (sid : String) (succ : Bool) (now : ℚ) :
    ∀ (l : List OtpSession) (s : OtpSession),
      (l.map (fun t => t.id)).Nodup →
      l.find? (fun t => decide (t.id = sid)) = some s → s.verified = true →
      l.any (fun t => decide (t.id = sid ∧ t.verified = false)) = false
      ∧ updateFirst (fun t => decide (t.id = sid ∧ t.verified = false))
          (consumeMark succ now) l = l
  | [], s, _, hf, _ => by simp [List.find?] at hf
  | x :: l, s, hnd, hf, hv => by
      rw [List.map_cons, List.nodup_cons] at hnd
      have hnd1 : ∀ t ∈ l, t.id ≠ x.id := by
        intro t ht he
        exact hnd.1 (he ▸ List.mem_map_of_mem (fun t => t.id) ht)
      by_cases hx : x.id = sid
      · rw [List.find?_cons_of_pos _ (by simp [hx])] at hf
        have hxs : x = s := Option.some.inj hf
        subst hxs
        have hall : ∀ t ∈ l,
            (fun t => decide (t.id = sid ∧ t.verified = false)) t = false := by
          intro t ht
          simp only [decide_eq_false_iff_not]
          rintro ⟨h1, _⟩
          exact hnd1 t ht (h1.trans hx.symm)
        have hp : (fun t => decide (t.id = sid ∧ t.verified = false)) x = false := by
          simp [hv]
        constructor
        · simp only [List.any_cons, hp, Bool.false_or]
          exact List.any_eq_false.2 (fun t ht => by simpa using hall t ht)
        · rw [updateFirst_cons_neg _ _ x l hp, updateFirst_no_match _ _ l hall]
      · rw [List.find?_cons_of_neg _ (by simp [hx])] at hf
        have ih := sessions_consume_noop sid succ now l s hnd.2 hf hv
        have hp : (fun t => decide (t.id = sid ∧ t.verified = false)) x = false := by
          simp [hx]
        constructor
        · simp only [List.any_cons, hp, Bool.false_or]
          exact ih.1
        · rw [updateFirst_cons_neg _ _ x l hp, ih.2]

/-- A session-id lookup that fails means the conditional update matches
nothing. -/
lemma sessions_consume_missing (sid : String) (succ : Bool) (now : ℚ)
    (l : List OtpSession)
    (hf : l.find? (fun t => decide (t.id = sid)) = none) :
    l.any (fun t => decide (t.id = sid ∧ t.verified = false)) = false
    ∧ updateFirst (fun t => decide (t.id = sid ∧ t.verified = false))
        (consumeMark succ now) l = l := by
  have hall : ∀ t ∈ l, (fun t => decide (t.id = sid ∧ t.verified = false)) t = false := by
    intro t ht
    have := List.find?_eq_none.1 hf t ht
    simp only [decide_eq_false_iff_not]
    rintro ⟨h1, _⟩
    exact this (by simp [h1])
  constructor
  · exact List.any_eq_false.2 (fun t ht => by simpa using hall t ht)
  · exact updateFirst_no_match _ _ l hall

lemma map_updateFirst {α β : Type} (g : α → β) (p : α → Bool) (f : α → α)
    (hf : ∀ x, g (f x) = g x) :
    ∀ l : List α, (updateFirst p f l).map g = l.map g
  | [] => rfl
  | x :: l => by
      by_cases hx : p x = true
      · rw [updateFirst_cons_pos p f x l hx]
        simp [hf x]
      · rw [updateFirst_cons_neg p f x l (by simpa using hx)]
        simp [map_updateFirst g p f hf l]

lemma verify_otp_session_missing (db : DB) (sid : String) (succ : Bool)
    (now : ℚ) (hf : get_otp_session db sid = none) :
    verify_otp_session db sid succ now = (db, false) := by
  have h := sessions_consume_missing sid succ now db.otp_sessions hf
  simp only [verify_otp_session, h.1, h.2]
  simp

lemma verify_otp_session_applied (db : DB) (sid : String) (succ : Bool)
    (now : ℚ) (s : OtpSession) (hf : get_otp_session db sid = some s)
    (hv : s.verified = false) :
    verify_otp_session db sid succ now
      = ({ payment_intents :=
             if succ then
               updateFirst (fun p => decide (p.id = s.payment_intent_id))
                 (fun p => { p with status := .completed, committed_at := some now })
                 db.payment_intents
             else db.payment_intents
           otp_sessions :=
             updateFirst (fun t => decide (t.id = sid ∧ t.verified = false))
               (consumeMark succ now) db.otp_sessions }, true) := by
  have h := sessions_consume_applied sid succ now db.otp_sessions s hf hv
  cases succ with
  | false =>
      simp only [verify_otp_session, h.1]
      simp
  | true =>
      have hpred : (fun t : OtpSession => decide (t.id = sid ∧ t.verified = false))
          = (fun t : OtpSession => decide (t.id = sid) && !t.verified) := by
        funext t
        by_cases h1 : t.id = sid <;> cases h2 : t.verified <;> simp [h1, h2]
      have h2 := h.2
      rw [hpred] at h2
      simp only [verify_otp_session, h.1]
      simp only [get_otp_session]
      simp [h2, consumeMark]

lemma verify_otp_session_already (db : DB) (sid : String) (succ : Bool)
    (now : ℚ) (s : OtpSession)
    (hnd : (db.otp_sessions.map (fun t => t.id)).Nodup)
    (hf : get_otp_session db sid = some s) (hv : s.verified = true) :
    verify_otp_session db sid succ now = (db, false) := by
  have h := sessions_consume_noop sid succ now db.otp_sessions s hnd hf hv
  simp only [verify_otp_session, h.1, h.2]
  simp

lemma get_otp_session_after_applied (db : DB) (sid : String) (succ : Bool)
    (now : ℚ) (s : OtpSession) (hf : get_otp_session db sid = some s)
    (hv : s.verified = false) :
    get_otp_session (verify_otp_session db sid succ now).1 sid
      = some (consumeMark succ now s) := by
  rw [verify_otp_session_applied db sid succ now s hf hv]
  simpa [get_otp_session] using
    (sessions_consume_applied sid succ now db.otp_sessions s hf hv).2

lemma sessions_nodup_after_applied (db : DB) (sid : String) (succ : Bool)
    (now : ℚ) (s : OtpSession) (hf : get_otp_session db sid = some s)
    (hv : s.verified = false)
    (hnd : (db.otp_sessions.map (fun t => t.id)).Nodup) :
    ((verify_otp_session db sid succ now).1.otp_sessions.map
      (fun t => t.id)).Nodup := by
  have hmap := map_updateFirst (fun t : OtpSession => t.id)
    (fun t => decide (t.id = sid ∧ t.verified = false))
    (consumeMark succ now) (fun _ => rfl) db.otp_sessions
  have hsess : (verify_otp_session db sid succ now).1.otp_sessions
      = updateFirst (fun t => decide (t.id = sid ∧ t.verified = false))
          (consumeMark succ now) db.otp_sessions := by
    rw [verify_otp_session_applied db sid succ now s hf hv]
  rw [hsess, hmap]
  exact hnd

lemma verify_otp_session_intents (db : DB) (sid : String) (succ : Bool)
    (now : ℚ) :
    (verify_otp_session db sid succ now).1.payment_intents = db.payment_intents
    ∨ ((verify_otp_session db sid succ now).2 = true ∧ succ = true
        ∧ ∃ pid2, (verify_otp_session db sid succ now).1.payment_intents
          = updateFirst (fun q => decide (q.id = pid2))
              (fun q => { q with status := .completed, committed_at := some now })
              db.payment_intents) := by
  simp only [verify_otp_session]
  split
  · next hcond =>
      split
      · next session _ =>
          right
          exact ⟨hcond.1, hcond.2, session.payment_intent_id, rfl⟩
      · left; rfl
  · left; rfl

/-! ### Claim theorems -/

/-- Claim C2, counterexample: with no other write in flight (counter 0)
`create_payment_intent` computes latency 69/4 = 17.25ms, while the
claimed formula at contention level 0 gives 15ms. -/
theorem C2_counterexample :
    (create_payment_intent 0 emptyDB "m" 100 "USD" "1111" "alice"
        ⟨"p1", 0, none, none⟩).latency = 69 / 4
    ∧ claimedLatencyPreIncrement 0 = 15
    ∧ ((69 : ℚ) / 4) ≠ 15 := by
  refine ⟨?_, ?_, ?_⟩
  · rw [create_payment_intent_latency]
    norm_num [simulateWriteLatency, BASE_WRITE_LATENCY_MS, CONTENTION_FACTOR]
  · norm_num [claimedLatencyPreIncrement, BASE_WRITE_LATENCY_MS, CONTENTION_FACTOR]
  · norm_num

/-- Claim C2 (amended): the simulated write latency of Intent Store
`create` equals `base_latency * (1 + c * contention_factor * 0.1)` where
`c` is the POST-increment counter value (the pre-increment contention
level plus the write itself), because the counter is incremented before
`_simulate_write_latency` reads it.  For pre-increment contention levels
0, 1 and 10 the latency is 17.25ms, 19.5ms and 39.75ms. -/
theorem C2_latency_formula (counter : Int) (db : DB) (m : String) (a : ℚ)
    (cur cl hn : String) (env : CreateEnv) :
    (create_payment_intent counter db m a cur cl hn env).latency
      = BASE_WRITE_LATENCY_MS * (1 + (counter + 1) * CONTENTION_FACTOR * (1 / 10))
    ∧ (create_payment_intent 0 db m a cur cl hn env).latency = 69 / 4
    ∧ (create_payment_intent 1 db m a cur cl hn env).latency = 39 / 2
    ∧ (create_payment_intent 10 db m a cur cl hn env).latency = 159 / 4 := by
  refine ⟨?_, ?_, ?_, ?_⟩ <;> rw [create_payment_intent_latency] <;>
    norm_num [simulateWriteLatency, BASE_WRITE_LATENCY_MS, CONTENTION_FACTOR]

/-- Claim C6: every `create_payment_intent` call emits exactly one
tracker begin paired with exactly one end, on every exit path including
the ones where persistence raises; for every event sequence the counter
stays ≥ 0 (the decrement floors at zero); and for every sequence in
which no prefix has more ends than begins and begins and ends balance
overall, the counter returns to 0. -/
theorem C6_contention_counter_discipline :
    (∀ (counter : Int) (db : DB) (m : String) (a : ℚ) (cur cl hn : String)
        (env : CreateEnv),
        (create_payment_intent counter db m a cur cl hn env).events
          = [TxEvent.tstart, TxEvent.tend])
    ∧ (∀ (es : List TxEvent) (n : Int), 0 ≤ n → 0 ≤ runEvents n es)
    ∧ (∀ es : List TxEvent,
        (∀ k, countEnd (es.take k) ≤ countStart (es.take k)) →
        countStart es = countEnd es → runEvents 0 es = 0) := by
  refine ⟨create_payment_intent_events, runEvents_nonneg, ?_⟩
  intro es hpre hbal
  have h : ∀ k, (countEnd (es.take k) : Int) ≤ 0 + countStart (es.take k) := by
    intro k
    have := hpre k
    omega
  have := runEvents_counts es 0 le_rfl h
  rw [this, hbal]
  omega

/-- Claim C6, witness: a concrete balanced interleaving of two
create-call event pairs drives the counter back to 0, and a concrete
create call emits `[begin, end]`. -/
theorem C6_witness :
    runEvents 0 [TxEvent.tstart, TxEvent.tstart, TxEvent.tend, TxEvent.tend] = 0
    ∧ (create_payment_intent 0 emptyDB "m" 100 "USD" "1111" "alice"
        ⟨"p1", 0, some "boom", none⟩).events = [TxEvent.tstart, TxEvent.tend] := by
  constructor
  · refine C6_contention_counter_discipline.2.2 _ ?_ (by decide)
    intro k
    match k with
    | 0 => decide
    | 1 => decide
    | 2 => decide
    | 3 => decide
    | (k + 4) =>
        rw [List.take_of_length_le (Nat.le_add_left 4 k)]
        decide
  · exact C6_contention_counter_discipline.1 0 emptyDB "m" 100 "USD" "1111"
      "alice" ⟨"p1", 0, some "boom", none⟩

lemma get_payment_intent_skip (pid : String) (t : ℚ) :
    ∀ (pre tail : List (ℚ × DB)),
    (∀ q ∈ pre, pollOk pid t q) →
    get_payment_intent pid t (pre ++ tail) = get_payment_intent pid t tail
  | [], _, _ => rfl
  | (e, db) :: pre, tail, h => by
      have h1 : e ≤ t := (h (e, db) (by simp)).1
      have h2 : findIntentReady db pid = none := (h (e, db) (by simp)).2
      have ih := get_payment_intent_skip pid t pre tail
        (fun q hq => h q (by simp [hq]))
      simp [get_payment_intent, not_lt.2 h1, h2, ih]

/-- Claim C7: the bounded read returns the record on the first poll at
which a record with the given id is in a ready status (within the
deadline); once the elapsed reading exceeds the timeout it returns the
not-found sentinel `none` as a normal value; and with timeout 0 any
strictly positive first elapsed reading yields not-found regardless of
the store's contents. -/
theorem C7_find_ready_bounded_wait :
    (∀ (pid : String) (t : ℚ) (pre : List (ℚ × DB)) (e : ℚ) (db : DB)
        (rest : List (ℚ × DB)) (p : PaymentIntent),
        (∀ q ∈ pre, pollOk pid t q) → e ≤ t →
        findIntentReady db pid = some p →
        get_payment_intent pid t (pre ++ (e, db) :: rest) = some (some p))
    ∧ (∀ (pid : String) (t : ℚ) (pre : List (ℚ × DB)) (e : ℚ) (db : DB)
        (rest : List (ℚ × DB)),
        (∀ q ∈ pre, pollOk pid t q) → t < e →
        get_payment_intent pid t (pre ++ (e, db) :: rest) = some none)
    ∧ (∀ (pid : String) (e : ℚ) (db : DB) (rest : List (ℚ × DB)),
        0 < e → get_payment_intent pid 0 ((e, db) :: rest) = some none) := by
  refine ⟨?_, ?_, ?_⟩
  · intro pid t pre e db rest p hpre he hp
    rw [get_payment_intent_skip pid t pre _ hpre]
    simp [get_payment_intent, not_lt.2 he, hp]
  · intro pid t pre e db rest hpre ht
    rw [get_payment_intent_skip pid t pre _ hpre]
    simp [get_payment_intent, ht]
  · intro pid e db rest h0
    simp [get_payment_intent, h0]

/-- Claim C7, witness: with timeout 0 and 1ms elapsed at the first check
the read returns the sentinel even though a ready record is present; and
a ready record is returned at the first in-deadline poll. -/
theorem C7_witness :
    get_payment_intent "p1" 0
      [(1, DB.mk [⟨"p1", "m", 100, "USD", "1111", "alice",
        .awaiting_otp, 0, none⟩] [])] = some none
    ∧ get_payment_intent "p1" 400
      [(10, DB.mk [⟨"p1", "m", 100, "USD", "1111", "alice",
        .awaiting_otp, 0, none⟩] [])]
      = some (some ⟨"p1", "m", 100, "USD", "1111", "alice",
        .awaiting_otp, 0, none⟩) := by
  constructor
  · exact C7_find_ready_bounded_wait.2.2 "p1" 1 _ [] (by norm_num)
  · exact C7_find_ready_bounded_wait.1 "p1" 400 [] 10 _ [] _
      (by simp) (by norm_num) (by decide)

/-- Claim C5: `verify_otp_session` consumes a session only when it is
currently unverified and returns whether the update applied; a consumed
session is marked `verified=true, failed=!success`; a second consume on
the same session returns false and changes nothing; and among all store
write operations, only a consume with `success=true` whose conditional
update applied can make an intent `completed`. -/
theorem C5_consume_single_winner :
    (∀ (db : DB) (sid : String) (succ : Bool) (now : ℚ) (s : OtpSession),
        get_otp_session db sid = some s → s.verified = false →
        (verify_otp_session db sid succ now).2 = true
        ∧ get_otp_session (verify_otp_session db sid succ now).1 sid
            = some { s with verified := true, failed := !succ, verified_at := some now })
    ∧ (∀ (db : DB) (sid : String) (succ : Bool) (now : ℚ) (s : OtpSession),
        (db.otp_sessions.map (fun t => t.id)).Nodup →
        get_otp_session db sid = some s → s.verified = true →
        verify_otp_session db sid succ now = (db, false))
    ∧ (∀ (db : DB) (sid : String) (succ : Bool) (now : ℚ),
        get_otp_session db sid = none →
        verify_otp_session db sid succ now = (db, false))
    ∧ (∀ (db : DB) (sid : String) (succ1 succ2 : Bool) (now1 now2 : ℚ)
          (s : OtpSession),
        (db.otp_sessions.map (fun t => t.id)).Nodup →
        get_otp_session db sid = some s → s.verified = false →
        verify_otp_session (verify_otp_session db sid succ1 now1).1 sid
            succ2 now2
          = ((verify_otp_session db sid succ1 now1).1, false))
    ∧ (∀ (db : DB) (op : StoreOp) (p : PaymentIntent),
        p ∈ (applyOp db op).payment_intents → p.status = .completed →
        (∃ q ∈ db.payment_intents, q.status = .completed)
        ∨ ∃ sid now, op = .consume sid true now
            ∧ (verify_otp_session db sid true now).2 = true) := by
  refine ⟨?_, ?_, ?_, ?_, ?_⟩
  · intro db sid succ now s hf hv
    refine ⟨?_, get_otp_session_after_applied db sid succ now s hf hv⟩
    rw [verify_otp_session_applied db sid succ now s hf hv]
  · intro db sid succ now s hnd hf hv
    exact verify_otp_session_already db sid succ now s hnd hf hv
  · intro db sid succ now hf
    exact verify_otp_session_missing db sid succ now hf
  · intro db sid succ1 succ2 now1 now2 s hnd hf hv
    have hg := get_otp_session_after_applied db sid succ1 now1 s hf hv
    have hnd1 := sessions_nodup_after_applied db sid succ1 now1 s hf hv hnd
    exact verify_otp_session_already _ sid succ2 now2
      (consumeMark succ1 now1 s) hnd1 hg rfl
  · intro db op p hp hc
    cases op with
    | createIntent c m a cur cl hn env =>
        obtain ⟨nid, ca, ie, ue⟩ := env
        cases ie with
        | some e =>
            left
            exact ⟨p, by simpa [applyOp, create_payment_intent] using hp, hc⟩
        | none =>
            cases ue with
            | some e =>
                left
                simp only [applyOp, create_payment_intent] at hp
                rcases List.mem_append.1 hp with h1 | h1
                · exact ⟨p, h1, hc⟩
                · rw [List.mem_singleton] at h1
                  subst h1
                  simp at hc
            | none =>
                simp only [applyOp, create_payment_intent] at hp
                rcases mem_updateFirst _ _ _ p hp with h1 | ⟨x, _, _, hpx⟩
                · rcases List.mem_append.1 h1 with h2 | h2
                  · exact Or.inl ⟨p, h2, hc⟩
                  · rw [List.mem_singleton] at h2
                    subst h2
                    simp at hc
                · subst hpx
                  simp at hc
    | createSession nid pid otp ca ex =>
        simp only [applyOp, create_otp_session] at hp
        rcases mem_updateFirst _ _ _ p hp with h1 | ⟨x, _, _, hpx⟩
        · exact Or.inl ⟨p, h1, hc⟩
        · subst hpx
          simp at hc
    | consume sid succ now =>
        simp only [applyOp] at hp
        rcases verify_otp_session_intents db sid succ now with hI | ⟨h2, hsucc, pid2, hI⟩
        · rw [hI] at hp
          exact Or.inl ⟨p, hp, hc⟩
        · rw [hI] at hp
          rcases mem_updateFirst _ _ _ p hp with h1 | ⟨x, hx, _, hpx⟩
          · exact Or.inl ⟨p, h1, hc⟩
          · subst hsucc
            exact Or.inr ⟨sid, now, rfl, h2⟩

/-- Claim C5, witness: a concrete unverified session is consumed with
success (returns true, record marked verified and not failed), and a
second consume on it returns false and leaves the store unchanged. -/
theorem C5_witness :
    (verify_otp_session
        (DB.mk [⟨"p1", "m", 100, "USD", "1111", "alice", .otp_sent, 0, none⟩]
          [⟨"S1", "p1", "123456", 0, 120000, false, false, none⟩])
        "S1" true 50).2 = true
    ∧ get_otp_session
        (verify_otp_session
          (DB.mk [⟨"p1", "m", 100, "USD", "1111", "alice", .otp_sent, 0, none⟩]
            [⟨"S1", "p1", "123456", 0, 120000, false, false, none⟩])
          "S1" true 50).1 "S1"
        = some ⟨"S1", "p1", "123456", 0, 120000, true, false, some 50⟩
    ∧ verify_otp_session
        (verify_otp_session
          (DB.mk [⟨"p1", "m", 100, "USD", "1111", "alice", .otp_sent, 0, none⟩]
            [⟨"S1", "p1", "123456", 0, 120000, false, false, none⟩])
          "S1" true 50).1 "S1" true 60
        = ((verify_otp_session
            (DB.mk [⟨"p1", "m", 100, "USD", "1111", "alice", .otp_sent, 0, none⟩]
              [⟨"S1", "p1", "123456", 0, 120000, false, false, none⟩])
            "S1" true 50).1, false) := by
  refine ⟨?_, ?_, ?_⟩
  · exact (C5_consume_single_winner.1 _ "S1" true 50
      ⟨"S1", "p1", "123456", 0, 120000, false, false, none⟩
      (by decide) rfl).1
  · exact (C5_consume_single_winner.1 _ "S1" true 50
      ⟨"S1", "p1", "123456", 0, 120000, false, false, none⟩
      (by decide) rfl).2
  · exact C5_consume_single_winner.2.2.2.1 _ "S1" true true 50 60
      ⟨"S1", "p1", "123456", 0, 120000, false, false, none⟩
      (by decide) (by decide) rfl

/-- Claim C4, counterexample: the session-missing branch is a terminal
branch of the verifier, yet it calls Session Store consume zero times,
not exactly once as claimed. -/
theorem C4_counterexample :
    (verify_otp emptyDB "S1" "123456" 0).message = "Invalid or expired session"
    ∧ (verify_otp emptyDB "S1" "123456" 0).consumeCalls.length ≠ 1 := by
  decide

/-- Claim C4 (amended): the verifier's checks run in the stated order
with short-circuiting and the stated reasons; the expiry, wrong-code and
success branches each call consume exactly once, while the
session-missing and already-used branches call it zero times; and an
expired code yields "OTP has expired" even when it equals the stored
code, marking the session failed exactly once. -/
theorem C4_verifier_checks :
    (∀ (db : DB) (sid code : String) (now : ℚ),
        get_otp_session db sid = none →
        verify_otp db sid code now = ⟨db, false, "Invalid or expired session", []⟩)
    ∧ (∀ (db : DB) (sid code : String) (now : ℚ) (s : OtpSession),
        get_otp_session db sid = some s → s.verified = true →
        verify_otp db sid code now = ⟨db, false, "OTP already used", []⟩)
    ∧ (∀ (db : DB) (sid code : String) (now : ℚ) (s : OtpSession),
        get_otp_session db sid = some s → s.verified = false →
        s.expires_at < now →
        verify_otp db sid code now
          = ⟨(verify_otp_session db sid false now).1, false,
              "OTP has expired", [(sid, false)]⟩
        ∧ get_otp_session (verify_otp db sid code now).db sid
            = some { s with verified := true, failed := true, verified_at := some now })
    ∧ (∀ (db : DB) (sid code : String) (now : ℚ) (s : OtpSession),
        get_otp_session db sid = some s → s.verified = false →
        ¬ s.expires_at < now → s.otp ≠ code →
        verify_otp db sid code now
          = ⟨(verify_otp_session db sid false now).1, false,
              "Invalid OTP", [(sid, false)]⟩
        ∧ get_otp_session (verify_otp db sid code now).db sid
            = some { s with verified := true, failed := true, verified_at := some now })
    ∧ (∀ (db : DB) (sid code : String) (now : ℚ) (s : OtpSession),
        get_otp_session db sid = some s → s.verified = false →
        ¬ s.expires_at < now → s.otp = code →
        verify_otp db sid code now
          = ⟨(verify_otp_session db sid true now).1, true,
              "Payment verified successfully", [(sid, true)]⟩
        ∧ get_otp_session (verify_otp db sid code now).db sid
            = some { s with verified := true, failed := false, verified_at := some now }) := by
  refine ⟨?_, ?_, ?_, ?_, ?_⟩
  · intro db sid code now hf
    simp [verify_otp, hf]
  · intro db sid code now s hf hv
    simp [verify_otp, hf, hv]
  · intro db sid code now s hf hv hexp
    have heq : verify_otp db sid code now
        = ⟨(verify_otp_session db sid false now).1, false,
            "OTP has expired", [(sid, false)]⟩ := by
      simp [verify_otp, hf, hv, hexp]
    refine ⟨heq, ?_⟩
    rw [heq]
    exact get_otp_session_after_applied db sid false now s hf hv
  · intro db sid code now s hf hv hexp hne
    have heq : verify_otp db sid code now
        = ⟨(verify_otp_session db sid false now).1, false,
            "Invalid OTP", [(sid, false)]⟩ := by
      simp [verify_otp, hf, hv, hexp, hne]
    refine ⟨heq, ?_⟩
    rw [heq]
    exact get_otp_session_after_applied db sid false now s hf hv
  · intro db sid code now s hf hv hexp hcode
    have heq : verify_otp db sid code now
        = ⟨(verify_otp_session db sid true now).1, true,
            "Payment verified successfully", [(sid, true)]⟩ := by
      simp [verify_otp, hf, hv, hexp, hcode]
    refine ⟨heq, ?_⟩
    rw [heq]
    exact get_otp_session_after_applied db sid true now s hf hv

/-- Claim C4, witness: a concrete unverified session whose code is
submitted correctly but after expiry yields "OTP has expired" with
exactly one consume call, and the session ends verified and failed. -/
theorem C4_witness :
    verify_otp (DB.mk [] [⟨"S1", "p1", "123456", 0, 100, false, false, none⟩])
        "S1" "123456" 200
      = ⟨(verify_otp_session
            (DB.mk [] [⟨"S1", "p1", "123456", 0, 100, false, false, none⟩])
            "S1" false 200).1, false, "OTP has expired", [("S1", false)]⟩
    ∧ get_otp_session
        (verify_otp (DB.mk [] [⟨"S1", "p1", "123456", 0, 100, false, false, none⟩])
          "S1" "123456" 200).db "S1"
      = some ⟨"S1", "p1", "123456", 0, 100, true, true, some 200⟩ := by
  exact C4_verifier_checks.2.2.1
    (DB.mk [] [⟨"S1", "p1", "123456", 0, 100, false, false, none⟩])
    "S1" "123456" 200 ⟨"S1", "p1", "123456", 0, 100, false, false, none⟩
    (by decide) rfl (by norm_num)

/-- Claim C8: once the bounded read has returned a record, the issuer
still returns the not-ready sentinel — creating no session — whenever
the remaining budget `OTP_TIMEOUT_MS - elapsed` is under the fixed 50ms
minimum issuance cost; only with at least 50ms left (and a healthy
insert) does it generate identifiers and persist a session. -/
theorem C8_issue_minimum_budget :
    (∀ (db : DB) (pid : String) (env : IssueEnv) (payment : PaymentIntent),
        get_payment_intent pid OTP_TIMEOUT_MS
            (env.pollTimes.map (fun e => (e, db))) = some (some payment) →
        OTP_TIMEOUT_MS - env.elapsedAfter < 50 →
        create_otp_for_payment db pid env = some (db, ⟨none, none, none⟩))
    ∧ (∀ (db : DB) (pid : String) (env : IssueEnv) (payment : PaymentIntent),
        get_payment_intent pid OTP_TIMEOUT_MS
            (env.pollTimes.map (fun e => (e, db))) = some (some payment) →
        ¬ OTP_TIMEOUT_MS - env.elapsedAfter < 50 →
        env.insertError = none →
        create_otp_for_payment db pid env
          = some ((create_otp_session db env.newSessionDocId pid env.otpCode
                env.now (env.now + OTP_EXPIRY_MINUTES * 60 * 1000)).1,
              ⟨some env.sessionId, some env.otpCode, none⟩)
        ∧ ((create_otp_session db env.newSessionDocId pid env.otpCode
              env.now (env.now + OTP_EXPIRY_MINUTES * 60 * 1000)).1).otp_sessions
            = db.otp_sessions ++ [⟨env.newSessionDocId, pid, env.otpCode,
                env.now, env.now + OTP_EXPIRY_MINUTES * 60 * 1000,
                false, false, none⟩]) := by
  constructor
  · intro db pid env payment hpoll hbud
    simp [create_otp_for_payment, hpoll, hbud]
  · intro db pid env payment hpoll hbud hins
    constructor
    · simp [create_otp_for_payment, hpoll, hbud, hins]
    · simp [create_otp_session]

/-- Claim C8, witness: with a ready record found at 10ms but 360ms
already elapsed (40ms budget), issuance is refused; with 100ms elapsed
(300ms budget) the session is persisted and the identifiers returned. -/
theorem C8_witness :
    create_otp_for_payment
        (DB.mk [⟨"p1", "m", 100, "USD", "1111", "alice", .awaiting_otp, 0, none⟩] [])
        "p1" ⟨[10], 360, "A3F8K2M9Q1R7T5W0", "483291", 1000, "U1", none⟩
      = some (DB.mk [⟨"p1", "m", 100, "USD", "1111", "alice", .awaiting_otp, 0, none⟩] [],
          ⟨none, none, none⟩)
    ∧ create_otp_for_payment
        (DB.mk [⟨"p1", "m", 100, "USD", "1111", "alice", .awaiting_otp, 0, none⟩] [])
        "p1" ⟨[10], 100, "A3F8K2M9Q1R7T5W0", "483291", 1000, "U1", none⟩
      = some ((create_otp_session
            (DB.mk [⟨"p1", "m", 100, "USD", "1111", "alice", .awaiting_otp, 0, none⟩] [])
            "U1" "p1" "483291" 1000 (1000 + OTP_EXPIRY_MINUTES * 60 * 1000)).1,
          ⟨some "A3F8K2M9Q1R7T5W0", some "483291", none⟩) := by
  constructor
  · exact C8_issue_minimum_budget.1 _ "p1"
      ⟨[10], 360, "A3F8K2M9Q1R7T5W0", "483291", 1000, "U1", none⟩
      ⟨"p1", "m", 100, "USD", "1111", "alice", .awaiting_otp, 0, none⟩
      (by decide) (by norm_num [OTP_TIMEOUT_MS])
  · exact (C8_issue_minimum_budget.2 _ "p1"
      ⟨[10], 100, "A3F8K2M9Q1R7T5W0", "483291", 1000, "U1", none⟩
      ⟨"p1", "m", 100, "USD", "1111", "alice", .awaiting_otp, 0, none⟩
      (by decide) (by norm_num [OTP_TIMEOUT_MS]) rfl).1

lemma issue_timeout (db : DB) (pid : String) (env : IssueEnv)
    (h : timedOutAttempt env) :
    create_otp_for_payment db pid env = some (db, ⟨none, none, none⟩) := by
  obtain ⟨t, ts, hpt, hlt⟩ := h
  have hscrut : get_payment_intent pid OTP_TIMEOUT_MS
      (env.pollTimes.map (fun e => (e, db))) = some none := by
    rw [hpt]
    simp [get_payment_intent, hlt]
  simp [create_otp_for_payment, hscrut]

lemma otpLoop_cons (pid : String) (db : DB) (lastErr : Option String)
    (env : IssueEnv) (rest : List IssueEnv) :
    otpLoop pid db lastErr (env :: rest)
      = match create_otp_for_payment db pid env with
        | none => none
        | some (db1, r) =>
            if truthy r.session_id && truthy r.otp then
              some ⟨db1, r.session_id, r.otp, lastErr, 1, 0⟩
            else
              let lastErr1 := if truthy r.error then r.error else lastErr
              match rest with
              | [] => some ⟨db1, r.session_id, r.otp, lastErr1, 1, 0⟩
              | _ :: _ =>
                  match otpLoop pid db1 lastErr1 rest with
                  | none => none
                  | some lr =>
                      some ⟨lr.db, lr.session_id, lr.otp, lr.lastError,
                            lr.issueCalls + 1, lr.sleeps + 1⟩ := rfl

lemma issue_low_budget (db : DB) (pid : String) (env : IssueEnv)
    (payment : PaymentIntent) (hready : findIntentReady db pid = some payment)
    (hfirst : ∃ t ts, env.pollTimes = t :: ts ∧ t ≤ OTP_TIMEOUT_MS)
    (hbud : OTP_TIMEOUT_MS - env.elapsedAfter < 50) :
    create_otp_for_payment db pid env = some (db, ⟨none, none, none⟩) := by
  obtain ⟨t, ts, hpt, hle⟩ := hfirst
  have hscrut : get_payment_intent pid OTP_TIMEOUT_MS
      (env.pollTimes.map (fun e => (e, db))) = some (some payment) := by
    rw [hpt]
    simp [get_payment_intent, not_lt.2 hle, hready]
  simp [create_otp_for_payment, hscrut, hbud]

lemma otpLoop_all_notReady (pid : String) :
    ∀ (envs : List IssueEnv) (db : DB) (lastErr : Option String),
      envs ≠ [] →
      (∀ e ∈ envs, create_otp_for_payment db pid e = some (db, ⟨none, none, none⟩)) →
      otpLoop pid db lastErr envs
        = some ⟨db, none, none, lastErr, envs.length, envs.length - 1⟩
  | [], _, _, h, _ => absurd rfl h
  | [e], db, lastErr, _, hall => by
      have h1 := hall e (by simp)
      simp [otpLoop, h1, truthy]
  | e :: e2 :: rest, db, lastErr, _, hall => by
      have h1 := hall e (by simp)
      have ih := otpLoop_all_notReady pid (e2 :: rest) db lastErr (by simp)
        (fun x hx => hall x (by simp [hx]))
      rw [otpLoop_cons, h1]
      simp [truthy, ih]

lemma create_ok_outcome (counter : Int) (db : DB) (m : String) (a : ℚ)
    (cur cl hn nid : String) (ca : ℚ) :
    (create_payment_intent counter db m a cur cl hn ⟨nid, ca, none, none⟩).outcome
      = .ok ⟨nid, m, a, cur, cl, hn, .awaiting_otp, ca, none⟩ := rfl

lemma create_ok_db (counter : Int) (db : DB) (m : String) (a : ℚ)
    (cur cl hn nid : String) (ca : ℚ) :
    (create_payment_intent counter db m a cur cl hn ⟨nid, ca, none, none⟩).db
      = ⟨updateFirst (fun p => decide (p.id = nid))
          (fun p => { p with status := .awaiting_otp })
          (db.payment_intents ++ [⟨nid, m, a, cur, cl, hn, .pending, ca, none⟩]),
        db.otp_sessions⟩ := rfl

lemma updateFirst_append_single {α : Type} (p : α → Bool) (f : α → α) :
    ∀ (l : List α) (x : α), (∀ y ∈ l, p y = false) → p x = true →
      updateFirst p f (l ++ [x]) = l ++ [f x]
  | [], x, _, hx => by
      simpa using updateFirst_cons_pos p f x [] hx
  | y :: l, x, hl, hx => by
      rw [List.cons_append, updateFirst_cons_neg p f y _ (hl y (by simp)),
        updateFirst_append_single p f l x (fun z hz => hl z (by simp [hz])) hx,
        List.cons_append]

lemma findIntentReady_after_create (counter : Int) (db : DB) (m : String)
    (a : ℚ) (cur cl hn nid : String) (ca : ℚ)
    (hfresh : ∀ p ∈ db.payment_intents, p.id ≠ nid) :
    findIntentReady
        (create_payment_intent counter db m a cur cl hn ⟨nid, ca, none, none⟩).db nid
      = some ⟨nid, m, a, cur, cl, hn, .awaiting_otp, ca, none⟩ := by
  rw [create_ok_db]
  have hup : updateFirst (fun p => decide (p.id = nid))
      (fun p => { p with status := IntentStatus.awaiting_otp })
      (db.payment_intents ++ [⟨nid, m, a, cur, cl, hn, .pending, ca, none⟩])
      = db.payment_intents ++ [⟨nid, m, a, cur, cl, hn, .awaiting_otp, ca, none⟩] := by
    exact updateFirst_append_single _ _ db.payment_intents _
      (fun y hy => by simp [hfresh y hy]) (by simp)
  simp only [findIntentReady]
  rw [hup, find?_append_left_none _ db.payment_intents _
    (fun y hy => by simp [hfresh y hy])]
  simp [readyStatuses]

/-- Claim C3: whenever Intent Store create raises a `StoreError` — on
the insert or on the follow-up status update — the orchestrator returns
a creation-error failure at once, with zero issuance attempts and zero
retry delays; and whenever every issuance attempt returns the not-ready
sentinel (whatever produced it: poll timeout or insufficient remaining
budget), it performs exactly `PAYMENT_RETRY_COUNT = 3` issue calls and 2
retry delays and returns the generic "Unable to generate OTP" failure
still carrying the intent identifier. -/
theorem C3_orchestrator_retry_policy :
    (∀ (counter : Int) (db : DB) (m card exp cvv hn : String) (a : ℚ)
        (cur : String) (env : InitEnv) (e : String),
        (create_payment_intent counter db m a cur (card_last_four card) hn
            env.create).outcome = .error e →
        (initiate_payment counter db m card exp cvv hn a cur env).map
            (fun o => (o.result, o.issueCalls, o.sleeps))
          = some (⟨false, "Payment creation failed: " ++ e, none, none, none⟩, 0, 0))
    ∧ (∀ (counter : Int) (db : DB) (m card exp cvv hn : String) (a : ℚ)
        (cur : String) (env : InitEnv),
        env.create.insertError = none → env.create.updateError = none →
        (∀ i, i < PAYMENT_RETRY_COUNT →
          create_otp_for_payment
              (create_payment_intent counter db m a cur (card_last_four card)
                hn env.create).db env.create.newId (env.attempts i)
            = some ((create_payment_intent counter db m a cur
                  (card_last_four card) hn env.create).db,
                ⟨none, none, none⟩)) →
        (initiate_payment counter db m card exp cvv hn a cur env).map
            (fun o => (o.result, o.issueCalls, o.sleeps))
          = some (⟨false, "Unable to generate OTP. Please try again.",
                    none, none, some env.create.newId⟩,
                  PAYMENT_RETRY_COUNT, PAYMENT_RETRY_COUNT - 1)) := by
  constructor
  · intro counter db m card exp cvv hn a cur env e he
    simp only [initiate_payment, he]
    simp
  · intro counter db m card exp cvv hn a cur env hie hue hall
    obtain ⟨⟨nid, ca, ie, ue⟩, atts⟩ := env
    simp only at hie hue hall
    subst hie
    subst hue
    have hrange : List.range PAYMENT_RETRY_COUNT = [0, 1, 2] := by decide
    have hloop := otpLoop_all_notReady nid [atts 0, atts 1, atts 2]
      (create_payment_intent counter db m a cur (card_last_four card) hn
        ⟨nid, ca, none, none⟩).db none (by simp)
      (by
        intro x hx
        simp only [List.mem_cons, List.not_mem_nil, or_false] at hx
        rcases hx with h | h | h
        · exact h ▸ hall 0 (by decide)
        · exact h ▸ hall 1 (by decide)
        · exact h ▸ hall 2 (by decide))
    simp only [initiate_payment, create_ok_outcome, hrange, List.map_cons,
      List.map_nil]
    rw [hloop]
    simp [truthy, PAYMENT_RETRY_COUNT]

/-- Claim C3, witness: a failing insert and a failing status update each
produce the creation error with no attempts; and a run whose first
attempt finds the record but has only 40ms of budget while the other two
attempts time out at the first poll still reports the generic failure
after exactly 3 attempts and 2 delays. -/
theorem C3_witness :
    (initiate_payment 0 emptyDB "m" "4242424242424242" "12/30" "123" "alice"
        100 "USD" ⟨⟨"P1", 0, some "db down", none⟩,
          fun _ => ⟨[500], 500, "S", "1", 0, "U", none⟩⟩).map
        (fun o => (o.result, o.issueCalls, o.sleeps))
      = some (⟨false, "Payment creation failed: db down", none, none, none⟩, 0, 0)
    ∧ (initiate_payment 0 emptyDB "m" "4242424242424242" "12/30" "123" "alice"
        100 "USD" ⟨⟨"P1", 0, none, some "update failed"⟩,
          fun _ => ⟨[500], 500, "S", "1", 0, "U", none⟩⟩).map
        (fun o => (o.result, o.issueCalls, o.sleeps))
      = some (⟨false, "Payment creation failed: update failed", none, none, none⟩, 0, 0)
    ∧ (initiate_payment 0 emptyDB "m" "4242424242424242" "12/30" "123" "alice"
        100 "USD" ⟨⟨"P1", 0, none, none⟩,
          fun i => if i = 0 then ⟨[10], 360, "S", "1", 0, "U", none⟩
            else ⟨[500], 500, "S", "1", 0, "U", none⟩⟩).map
        (fun o => (o.result, o.issueCalls, o.sleeps))
      = some (⟨false, "Unable to generate OTP. Please try again.",
                none, none, some "P1"⟩, 3, 2) := by
  refine ⟨?_, ?_, ?_⟩
  · exact C3_orchestrator_retry_policy.1 0 emptyDB "m" "4242424242424242"
      "12/30" "123" "alice" 100 "USD"
      ⟨⟨"P1", 0, some "db down", none⟩, fun _ => ⟨[500], 500, "S", "1", 0, "U", none⟩⟩
      "db down" rfl
  · exact C3_orchestrator_retry_policy.1 0 emptyDB "m" "4242424242424242"
      "12/30" "123" "alice" 100 "USD"
      ⟨⟨"P1", 0, none, some "update failed"⟩,
        fun _ => ⟨[500], 500, "S", "1", 0, "U", none⟩⟩
      "update failed" rfl
  · refine C3_orchestrator_retry_policy.2 0 emptyDB "m" "4242424242424242"
      "12/30" "123" "alice" 100 "USD"
      ⟨⟨"P1", 0, none, none⟩,
        fun i => if i = 0 then ⟨[10], 360, "S", "1", 0, "U", none⟩
          else ⟨[500], 500, "S", "1", 0, "U", none⟩⟩
      rfl rfl ?_
    intro i _
    have hfind := findIntentReady_after_create 0 emptyDB "m" 100 "USD"
      (card_last_four "4242424242424242") "alice" "P1" 0 (by simp [emptyDB])
    match i with
    | 0 =>
        have h := issue_low_budget
          (create_payment_intent 0 emptyDB "m" 100 "USD"
            (card_last_four "4242424242424242") "alice" ⟨"P1", 0, none, none⟩).db
          "P1" ⟨[10], 360, "S", "1", 0, "U", none⟩
          ⟨"P1", "m", 100, "USD", card_last_four "4242424242424242", "alice",
            .awaiting_otp, 0, none⟩
          hfind ⟨10, [], rfl, by norm_num [OTP_TIMEOUT_MS]⟩
          (by norm_num [OTP_TIMEOUT_MS])
        simpa using h
    | Nat.succ n =>
        have h := issue_timeout
          (create_payment_intent 0 emptyDB "m" 100 "USD"
            (card_last_four "4242424242424242") "alice" ⟨"P1", 0, none, none⟩).db
          "P1" ⟨[500], 500, "S", "1", 0, "U", none⟩
          ⟨500, [], rfl, by norm_num [OTP_TIMEOUT_MS]⟩
        simpa using h

lemma issue_insert_error (db : DB) (pid : String) (env : IssueEnv)
    (payment : PaymentIntent) (hready : findIntentReady db pid = some payment)
    (h : erroringAttempt env) :
    create_otp_for_payment db pid env = some (db, ⟨none, none, env.insertError⟩) := by
  obtain ⟨⟨t, ts, hpt, hle⟩, hbud, msg, hins, hne⟩ := h
  have hscrut : get_payment_intent pid OTP_TIMEOUT_MS
      (env.pollTimes.map (fun e => (e, db))) = some (some payment) := by
    rw [hpt]
    simp [get_payment_intent, not_lt.2 hle, hready]
  simp [create_otp_for_payment, hscrut, hbud, hins]

lemma otpLoop_all_error (pid : String) (payment : PaymentIntent) :
    ∀ (envs : List IssueEnv) (db : DB) (lastErr : Option String)
      (last : IssueEnv),
      findIntentReady db pid = some payment →
      (∀ e ∈ envs, erroringAttempt e) →
      envs.getLast? = some last →
      otpLoop pid db lastErr envs
        = some ⟨db, none, none, last.insertError, envs.length, envs.length - 1⟩
  | [], _, _, _, _, _, h => by simp at h
  | [e], db, lastErr, last, hready, hall, hlast => by
      obtain ⟨_, _, msg, hins, hne⟩ := hall e (by simp)
      have h1 := issue_insert_error db pid e payment hready (hall e (by simp))
      have hl : last = e := by
        simpa using hlast.symm
      subst hl
      rw [otpLoop_cons, h1]
      simp [truthy, hins, hne]
  | e :: e2 :: rest, db, lastErr, last, hready, hall, hlast => by
      obtain ⟨_, _, msg, hins, hne⟩ := hall e (by simp)
      have h1 := issue_insert_error db pid e payment hready (hall e (by simp))
      have hlast' : (e2 :: rest).getLast? = some last := by
        simpa [List.getLast?_cons_cons] using hlast
      have ih := otpLoop_all_error pid payment (e2 :: rest) db e.insertError
        last hready (fun x hx => hall x (by simp [hx])) hlast'
      rw [hins] at ih
      rw [otpLoop_cons, h1]
      simp [truthy, hins, hne, ih]

/-- Claim C9: when the Session Store insert raises during an attempt,
the issuer returns `(None, None, error-text)` instead of propagating;
the orchestrator treats this like not-ready — retrying the full
`PAYMENT_RETRY_COUNT` attempts with the delays between them — and on
exhaustion returns the generic failure whose message does not carry the
store error text, which is only recorded in the internal last-error. -/
theorem C9_insert_error_swallowed :
    (∀ (db : DB) (pid : String) (env : IssueEnv) (payment : PaymentIntent),
        findIntentReady db pid = some payment → erroringAttempt env →
        create_otp_for_payment db pid env
          = some (db, ⟨none, none, env.insertError⟩))
    ∧ (∀ (counter : Int) (db : DB) (m card exp cvv hn : String) (a : ℚ)
        (cur : String) (env : InitEnv),
        env.create.insertError = none → env.create.updateError = none →
        (∀ p ∈ db.payment_intents, p.id ≠ env.create.newId) →
        (∀ i, i < PAYMENT_RETRY_COUNT → erroringAttempt (env.attempts i)) →
        (initiate_payment counter db m card exp cvv hn a cur env).map
            (fun o => (o.result, o.issueCalls, o.sleeps, o.lastError))
          = some (⟨false, "Unable to generate OTP. Please try again.",
                    none, none, some env.create.newId⟩,
                  PAYMENT_RETRY_COUNT, PAYMENT_RETRY_COUNT - 1,
                  (env.attempts 2).insertError)) := by
  constructor
  · intro db pid env payment hready herr
    exact issue_insert_error db pid env payment hready herr
  · intro counter db m card exp cvv hn a cur env hie hue hfresh hall
    obtain ⟨⟨nid, ca, ie, ue⟩, atts⟩ := env
    simp only at hie hue hall hfresh
    subst hie
    subst hue
    have hrange : List.range PAYMENT_RETRY_COUNT = [0, 1, 2] := by decide
    have hfind := findIntentReady_after_create counter db m a cur
      (card_last_four card) hn nid ca hfresh
    have hloop := otpLoop_all_error nid
      ⟨nid, m, a, cur, card_last_four card, hn, .awaiting_otp, ca, none⟩
      [atts 0, atts 1, atts 2]
      (create_payment_intent counter db m a cur (card_last_four card) hn
        ⟨nid, ca, none, none⟩).db none (atts 2) hfind
      (by
        intro x hx
        simp only [List.mem_cons, List.not_mem_nil, or_false] at hx
        rcases hx with h | h | h
        · exact h ▸ hall 0 (by decide)
        · exact h ▸ hall 1 (by decide)
        · exact h ▸ hall 2 (by decide))
      (by simp)
    simp only [initiate_payment, create_ok_outcome, hrange, List.map_cons,
      List.map_nil]
    rw [hloop]
    simp [truthy, PAYMENT_RETRY_COUNT]

/-- Claim C9, witness: a store insert failing with "socket timeout" on
all three attempts yields the generic failure, 3 attempts, 2 delays, and
the error text only in the internal last-error field. -/
theorem C9_witness :
    (initiate_payment 0 emptyDB "m" "4242424242424242" "12/30" "123" "alice"
        100 "USD" ⟨⟨"P1", 0, none, none⟩,
          fun _ => ⟨[10], 100, "S", "483291", 0, "U", some "socket timeout"⟩⟩).map
        (fun o => (o.result, o.issueCalls, o.sleeps, o.lastError))
      = some (⟨false, "Unable to generate OTP. Please try again.",
                none, none, some "P1"⟩, 3, 2, some "socket timeout") := by
  exact C9_insert_error_swallowed.2 0 emptyDB "m" "4242424242424242" "12/30"
    "123" "alice" 100 "USD"
    ⟨⟨"P1", 0, none, none⟩,
      fun _ => ⟨[10], 100, "S", "483291", 0, "U", some "socket timeout"⟩⟩
    rfl rfl (by simp [emptyDB])
    (fun i _ => ⟨⟨10, [], rfl, by norm_num [OTP_TIMEOUT_MS]⟩,
      by norm_num [OTP_TIMEOUT_MS], "socket timeout", rfl, by decide⟩)

/-- Claim C10: `initiate_payment` depends on the card number only
through its last four characters, and never on cvv or expiry: two runs
with the same oracle draws that agree on the card suffix produce
identical outcomes (same persisted store, same result), whatever the
other digits, the cvv and the expiry are. -/
theorem C10_card_data_minimal (counter : Int) (db : DB)
    (m c1 c2 exp1 exp2 cvv1 cvv2 hn : String) (a : ℚ) (cur : String)
    (env : InitEnv) (h : card_last_four c1 = card_last_four c2) :
    initiate_payment counter db m c1 exp1 cvv1 hn a cur env
      = initiate_payment counter db m c2 exp2 cvv2 hn a cur env := by
  simp only [initiate_payment, h]

/-- Claim C10, witness: two requests differing in every card digit but
the last four, and in cvv and expiry, produce identical outcomes. -/
theorem C10_witness :
    initiate_payment 0 emptyDB "m" "4242424242421111" "12/30" "123" "alice"
        100 "USD" ⟨⟨"P1", 0, none, none⟩,
          fun _ => ⟨[10], 100, "A3F8K2M9Q1R7T5W0", "483291", 1000, "U1", none⟩⟩
      = initiate_payment 0 emptyDB "m" "5500005555551111" "01/28" "999" "alice"
        100 "USD" ⟨⟨"P1", 0, none, none⟩,
          fun _ => ⟨[10], 100, "A3F8K2M9Q1R7T5W0", "483291", 1000, "U1", none⟩⟩ := by
  exact C10_card_data_minimal 0 emptyDB "m" "4242424242421111" "5500005555551111"
    "12/30" "01/28" "123" "999" "alice" 100 "USD"
    ⟨⟨"P1", 0, none, none⟩,
      fun _ => ⟨[10], 100, "A3F8K2M9Q1R7T5W0", "483291", 1000, "U1", none⟩⟩
    (by decide)

lemma issue_success (db : DB) (pid : String) (env : IssueEnv)
    (payment : PaymentIntent) (hready : findIntentReady db pid = some payment)
    (hfirst : ∃ t ts, env.pollTimes = t :: ts ∧ t ≤ OTP_TIMEOUT_MS)
    (hbud : ¬ OTP_TIMEOUT_MS - env.elapsedAfter < 50)
    (hins : env.insertError = none) :
    create_otp_for_payment db pid env
      = some ((create_otp_session db env.newSessionDocId pid env.otpCode
            env.now (env.now + OTP_EXPIRY_MINUTES * 60 * 1000)).1,
          ⟨some env.sessionId, some env.otpCode, none⟩) := by
  obtain ⟨t, ts, hpt, hle⟩ := hfirst
  have hscrut : get_payment_intent pid OTP_TIMEOUT_MS
      (env.pollTimes.map (fun e => (e, db))) = some (some payment) := by
    rw [hpt]
    simp [get_payment_intent, not_lt.2 hle, hready]
  simp [create_otp_for_payment, hscrut, hbud, hins]

/-- Claim C1: on a happy-path run `initiate_payment` succeeds and
returns the generated pair `(session_id, code)`, but the session record
was persisted under a fresh uuid `_id` that `create_otp_session` mints
itself — it never receives the generated session id.  Verifying with the
returned pair therefore fails with "Invalid or expired session", makes
no consume call, and the intent stays `otp_sent`, never `completed`. -/
theorem C1_roundtrip_broken :
    (c1Run.map (fun o => (o.result.success, o.result.session_id, o.result.otp)))
      = some (true, some "A3F8K2M9Q1R7T5W0", some "483291")
    ∧ (c1Run.map (fun o => o.db.otp_sessions.map (fun s => s.id)))
      = some ["aaaabbbb-cccc-dddd-eeee-ffff00001111"]
    ∧ (c1Run.map (fun o =>
          ((verify_otp o.db "A3F8K2M9Q1R7T5W0" "483291" 1500).ok,
           (verify_otp o.db "A3F8K2M9Q1R7T5W0" "483291" 1500).message,
           (verify_otp o.db "A3F8K2M9Q1R7T5W0" "483291" 1500).consumeCalls)))
      = some (false, "Invalid or expired session", [])
    ∧ (c1Run.map (fun o => o.db.payment_intents.map (fun p => p.status)))
      = some [.otp_sent]
    ∧ ("A3F8K2M9Q1R7T5W0" : String) ≠ "aaaabbbb-cccc-dddd-eeee-ffff00001111" := by
  have hfind := findIntentReady_after_create 0 emptyDB "merchant-1" 100 "USD"
    (card_last_four "4242424242424242") "alice"
    "11111111-2222-3333-4444-555555555555" 0 (by simp [emptyDB])
  have hissue := issue_success
    (create_payment_intent 0 emptyDB "merchant-1" 100 "USD"
      (card_last_four "4242424242424242") "alice"
      ⟨"11111111-2222-3333-4444-555555555555", 0, none, none⟩).db
    "11111111-2222-3333-4444-555555555555"
    ⟨[10], 20, "A3F8K2M9Q1R7T5W0", "483291", 1000,
      "aaaabbbb-cccc-dddd-eeee-ffff00001111", none⟩
    ⟨"11111111-2222-3333-4444-555555555555", "merchant-1", 100, "USD",
      card_last_four "4242424242424242", "alice", .awaiting_otp, 0, none⟩
    hfind ⟨10, [], rfl, by norm_num [OTP_TIMEOUT_MS]⟩
    (by norm_num [OTP_TIMEOUT_MS]) rfl
  have hrange : List.range PAYMENT_RETRY_COUNT = [0, 1, 2] := by decide
  have hloop : otpLoop "11111111-2222-3333-4444-555555555555"
      (create_payment_intent 0 emptyDB "merchant-1" 100 "USD"
        (card_last_four "4242424242424242") "alice"
        ⟨"11111111-2222-3333-4444-555555555555", 0, none, none⟩).db none
      [⟨[10], 20, "A3F8K2M9Q1R7T5W0", "483291", 1000,
          "aaaabbbb-cccc-dddd-eeee-ffff00001111", none⟩,
       ⟨[10], 20, "A3F8K2M9Q1R7T5W0", "483291", 1000,
          "aaaabbbb-cccc-dddd-eeee-ffff00001111", none⟩,
       ⟨[10], 20, "A3F8K2M9Q1R7T5W0", "483291", 1000,
          "aaaabbbb-cccc-dddd-eeee-ffff00001111", none⟩]
      = some ⟨(create_otp_session
            (create_payment_intent 0 emptyDB "merchant-1" 100 "USD"
              (card_last_four "4242424242424242") "alice"
              ⟨"11111111-2222-3333-4444-555555555555", 0, none, none⟩).db
            "aaaabbbb-cccc-dddd-eeee-ffff00001111"
            "11111111-2222-3333-4444-555555555555" "483291" 1000
            (1000 + OTP_EXPIRY_MINUTES * 60 * 1000)).1,
          some "A3F8K2M9Q1R7T5W0", some "483291", none, 1, 0⟩ := by
    rw [otpLoop_cons, hissue]
    simp [truthy]
  have hrun : c1Run = some
      ⟨⟨true, "OTP generated successfully", some "A3F8K2M9Q1R7T5W0",
          some "483291", some "11111111-2222-3333-4444-555555555555"⟩,
        (create_otp_session
          (create_payment_intent 0 emptyDB "merchant-1" 100 "USD"
            (card_last_four "4242424242424242") "alice"
            ⟨"11111111-2222-3333-4444-555555555555", 0, none, none⟩).db
          "aaaabbbb-cccc-dddd-eeee-ffff00001111"
          "11111111-2222-3333-4444-555555555555" "483291" 1000
          (1000 + OTP_EXPIRY_MINUTES * 60 * 1000)).1,
        (create_payment_intent 0 emptyDB "merchant-1" 100 "USD"
          (card_last_four "4242424242424242") "alice"
          ⟨"11111111-2222-3333-4444-555555555555", 0, none, none⟩).counter,
        [.tstart, .tend], 1, 0, none⟩ := by
    simp only [c1Run, initiate_payment, create_ok_outcome, hrange,
      List.map_cons, List.map_nil]
    rw [hloop]
    simp [truthy, create_payment_intent_events]
  refine ⟨?_, ?_, ?_, ?_, ?_⟩
  · rw [hrun]
    decide
  · rw [hrun]
    decide
  · rw [hrun]
    decide
  · rw [hrun]
    decide
  · decide

end PaymentGateway
